import Mathlib

/-!
Shallow embedding of the lamp controller in `src/LampControlEsp8266.cpp`.

The program is a tick-driven debounce state machine: every second the timer
calls `checkSwitchConditions`, which calls `updateLightValue` (read the
sensor, classify dark/bright against `settingDarkLevelParam`, update the
stability counter `currLightConditionCycles`) and then switches the relay
when the counter has reached `settingDelayParam` and the classification
disagrees with the current relay state.

Modelling choices:
* C++ `int` / `int16_t` values are modelled as `Int` (the parameters are
  validated to [1,100] by IotWebConf `min(1).max(100)`, stated as hypotheses
  where a claim needs them).
* The GPIO pins D5/D8 written by `digitalWrite` are modelled as explicit
  `PinLevel` fields of the state, so that `switchRelayOn` / `switchRelayOff`
  and `setup` are faithful to the actuator writes.
* `analogRead(A0)` is modelled as an explicit per-tick input (an arbitrary
  `Int`; the hardware range 0..1023 is never relied upon by the code).
* The debug string `switchConditionInfo` and the serial prints carry no
  control state and are omitted.
* The C++ `checkSwitchConditions` returns `true` (keep the timer running)
  unconditionally; the returned boolean carries no state and is omitted.
-/

namespace LampControl

/-- Level of a digital output pin (`digitalWrite` LOW/HIGH). -/
inductive PinLevel where
  | low
  | high
deriving DecidableEq, Repr

/-- The two runtime-configurable parameters.
`settingDelayParam` ("Delay switch seconds") and `settingDarkLevelParam`
("Dark level") are both built with `.min(1).max(100)`, so validated values
lie in [1,100]. -/
structure Config where
  settingDelayParam : Int
  settingDarkLevelParam : Int
deriving DecidableEq, Repr

/-- The mutable globals of the sketch that the control logic touches, plus
the two output pins driven by `digitalWrite`. -/
structure ControllerState where
  pinD5 : PinLevel
  pinD8 : PinLevel
  relayState : Int
  lightConditionDark : Bool
  lightLevel : Int
  currLightConditionCycles : Int
deriving DecidableEq, Repr

/-- `switchRelayOn`: `digitalWrite(D5, LOW); digitalWrite(D8, HIGH); relayState = 1;` -/
def switchRelayOn (s : ControllerState) : ControllerState :=
  { s with pinD5 := PinLevel.low, pinD8 := PinLevel.high, relayState := 1 }

/-- `switchRelayOff`: `digitalWrite(D5, HIGH); digitalWrite(D8, LOW); relayState = 0;` -/
def switchRelayOff (s : ControllerState) : ControllerState :=
  { s with pinD5 := PinLevel.high, pinD8 := PinLevel.low, relayState := 0 }

/-- The dark/bright classification computed at the top of `updateLightValue`:
`if (lightLevel <= darkLevelSetting) newLightConditionDark = true else false`. -/
def classifiesDark (cfg : Config) (lightLevel : Int) : Bool :=
  if lightLevel ≤ cfg.settingDarkLevelParam then true else false

/-- `updateLightValue`, with the value read by `analogRead(A0)` passed in as
`analogReadA0`. Classifies the reading, updates `lightConditionDark` and the
stability counter `currLightConditionCycles` (reset on a classification
change, otherwise incremented and then clamped to `settingDelayParam`). -/
def updateLightValue (cfg : Config) (s : ControllerState) (analogReadA0 : Int) :
    ControllerState :=
  let lightLevel := analogReadA0
  let newLightConditionDark : Bool := classifiesDark cfg lightLevel
  let cycles1 : Int :=
    if newLightConditionDark = s.lightConditionDark then
      s.currLightConditionCycles + 1
    else 0
  let cyclesRequiredForRelayChange := cfg.settingDelayParam
  let cycles2 : Int :=
    if cycles1 > cyclesRequiredForRelayChange then cyclesRequiredForRelayChange
    else cycles1
  { s with
      lightLevel := lightLevel
      lightConditionDark := newLightConditionDark
      currLightConditionCycles := cycles2 }

/-- `checkSwitchConditions`, the body run once per timer tick: update the
light value, then switch the relay when allowed by time and the
classification disagrees with the current relay state. -/
def checkSwitchConditions (cfg : Config) (s : ControllerState) (analogReadA0 : Int) :
    ControllerState :=
  let s1 := updateLightValue cfg s analogReadA0
  let cyclesRequiredForRelayChange := cfg.settingDelayParam
  let switchAllowedByTime : Bool :=
    decide (s1.currLightConditionCycles ≥ cyclesRequiredForRelayChange)
  if s1.relayState = 0 then
    if s1.lightConditionDark && switchAllowedByTime then switchRelayOn s1 else s1
  else
    if !s1.lightConditionDark && switchAllowedByTime then switchRelayOff s1 else s1

/-- Run a sequence of ticks, one per sensor reading. -/
def runTicks (cfg : Config) (s : ControllerState) (readings : List Int) :
    ControllerState :=
  readings.foldl (checkSwitchConditions cfg) s

/-- The global initializers of the sketch: `relayState = 0`,
`lightConditionDark = false`, `lightLevel = 1023`,
`currLightConditionCycles = 0`. The pin levels before `setup` runs are
whatever the hardware left them at. -/
def initialGlobals (priorD5 priorD8 : PinLevel) : ControllerState :=
  { pinD5 := priorD5
    pinD8 := priorD8
    relayState := 0
    lightConditionDark := false
    lightLevel := 1023
    currLightConditionCycles := 0 }

/-- The state-relevant effect of `setup()`: starting from the global
initializers (with arbitrary prior pin levels), it calls `switchRelayOff()`
before the timer is armed.  `setup` reads no sensor value. -/
def setup (priorD5 priorD8 : PinLevel) : ControllerState :=
  switchRelayOff (initialGlobals priorD5 priorD8)

/-- Whether the classification flips (differs from the stored
`lightConditionDark`) on every tick of a run of readings. -/
def flipsEveryTick (cfg : Config) : ControllerState → List Int → Prop
  | _, [] => True
  | s, r :: rs =>
      classifiesDark cfg r ≠ s.lightConditionDark ∧
      flipsEveryTick cfg (checkSwitchConditions cfg s r) rs

/-! ### Basic lemmas about a single tick -/

theorem updateLightValue_relayState (cfg : Config) (s : ControllerState) (r : Int) :
    (updateLightValue cfg s r).relayState = s.relayState := rfl

theorem updateLightValue_lightConditionDark (cfg : Config) (s : ControllerState) (r : Int) :
    (updateLightValue cfg s r).lightConditionDark = classifiesDark cfg r := rfl

theorem updateLightValue_cycles_same (cfg : Config) (s : ControllerState) (r : Int)
    (h : classifiesDark cfg r = s.lightConditionDark) :
    (updateLightValue cfg s r).currLightConditionCycles =
      min (s.currLightConditionCycles + 1) cfg.settingDelayParam := by
  simp only [updateLightValue, h, if_true]
  split <;> omega

theorem updateLightValue_cycles_diff (cfg : Config) (s : ControllerState) (r : Int)
    (h1 : 1 ≤ cfg.settingDelayParam)
    (h : classifiesDark cfg r ≠ s.lightConditionDark) :
    (updateLightValue cfg s r).currLightConditionCycles = 0 := by
  simp only [updateLightValue, h, if_false]
  split <;> omega

theorem checkSwitchConditions_lightConditionDark (cfg : Config) (s : ControllerState)
    (r : Int) :
    (checkSwitchConditions cfg s r).lightConditionDark = classifiesDark cfg r := by
  simp only [checkSwitchConditions, switchRelayOn, switchRelayOff]
  split <;> split <;> rfl

theorem checkSwitchConditions_cycles (cfg : Config) (s : ControllerState) (r : Int) :
    (checkSwitchConditions cfg s r).currLightConditionCycles =
      (updateLightValue cfg s r).currLightConditionCycles := by
  simp only [checkSwitchConditions, switchRelayOn, switchRelayOff]
  split <;> split <;> rfl

theorem checkSwitchConditions_relay_of_not_allowed (cfg : Config) (s : ControllerState)
    (r : Int)
    (h : (updateLightValue cfg s r).currLightConditionCycles < cfg.settingDelayParam) :
    (checkSwitchConditions cfg s r).relayState = s.relayState := by
  have hd : decide ((updateLightValue cfg s r).currLightConditionCycles ≥
      cfg.settingDelayParam) = false := by
    simp only [decide_eq_false_iff_not]
    omega
  simp only [checkSwitchConditions, hd, Bool.and_false,
    updateLightValue_relayState]
  split <;> simp [updateLightValue_relayState]

theorem checkSwitchConditions_relay_allowed (cfg : Config) (s : ControllerState) (r : Int)
    (hrel : s.relayState = 0 ∨ s.relayState = 1)
    (h : cfg.settingDelayParam ≤ (updateLightValue cfg s r).currLightConditionCycles) :
    (checkSwitchConditions cfg s r).relayState =
      if classifiesDark cfg r then 1 else 0 := by
  have hd : decide ((updateLightValue cfg s r).currLightConditionCycles ≥
      cfg.settingDelayParam) = true := by
    simp only [decide_eq_true_eq]
    omega
  simp only [checkSwitchConditions, hd, Bool.and_true,
    updateLightValue_lightConditionDark, updateLightValue_relayState]
  rcases hrel with h0 | h1
  · rw [if_pos h0]
    cases hc : classifiesDark cfg r <;>
      simp [switchRelayOn, updateLightValue_relayState, h0]
  · rw [if_neg (by omega)]
    cases hc : classifiesDark cfg r <;>
      simp [switchRelayOff, updateLightValue_relayState, h1]

theorem checkSwitchConditions_relay_matched (cfg : Config) (s : ControllerState) (r : Int)
    (h : s.relayState = if classifiesDark cfg r then 1 else 0) :
    (checkSwitchConditions cfg s r).relayState = s.relayState := by
  simp only [checkSwitchConditions, updateLightValue_lightConditionDark]
  rcases Bool.eq_false_or_eq_true (classifiesDark cfg r) with hc | hc <;>
    simp only [hc] at h ⊢ <;>
    simp at h <;>
    simp [h, updateLightValue_relayState, switchRelayOn, switchRelayOff]

theorem checkSwitchConditions_relay_mem (cfg : Config) (s : ControllerState) (r : Int)
    (hrel : s.relayState = 0 ∨ s.relayState = 1) :
    (checkSwitchConditions cfg s r).relayState = 0 ∨
      (checkSwitchConditions cfg s r).relayState = 1 := by
  simp only [checkSwitchConditions, switchRelayOn, switchRelayOff]
  split
  · split
    · right; rfl
    · simpa [updateLightValue_relayState] using hrel
  · split
    · left; rfl
    · simpa [updateLightValue_relayState] using hrel

theorem checkSwitchConditions_cycles_le (cfg : Config) (s : ControllerState) (r : Int)
    (h1 : 1 ≤ cfg.settingDelayParam) :
    (checkSwitchConditions cfg s r).currLightConditionCycles ≤ cfg.settingDelayParam := by
  rw [checkSwitchConditions_cycles]
  by_cases hc : classifiesDark cfg r = s.lightConditionDark
  · rw [updateLightValue_cycles_same cfg s r hc]
    omega
  · rw [updateLightValue_cycles_diff cfg s r h1 hc]
    omega

/-! ### Lemmas about runs of ticks -/

theorem runTicks_nil (cfg : Config) (s : ControllerState) : runTicks cfg s [] = s := rfl

theorem runTicks_cons (cfg : Config) (s : ControllerState) (r : Int) (rs : List Int) :
    runTicks cfg s (r :: rs) = runTicks cfg (checkSwitchConditions cfg s r) rs := rfl

theorem runTicks_append (cfg : Config) (s : ControllerState) (rs ts : List Int) :
    runTicks cfg s (rs ++ ts) = runTicks cfg (runTicks cfg s rs) ts := by
  simp [runTicks]

theorem runTicks_cycles_nonneg (cfg : Config) (h1 : 1 ≤ cfg.settingDelayParam) :
    ∀ (rs : List Int) (s : ControllerState), 0 ≤ s.currLightConditionCycles →
      0 ≤ (runTicks cfg s rs).currLightConditionCycles := by
  intro rs
  induction rs with
  | nil => intro s h; exact h
  | cons r rs ih =>
      intro s h
      rw [runTicks_cons]
      apply ih
      rw [checkSwitchConditions_cycles]
      by_cases hc : classifiesDark cfg r = s.lightConditionDark
      · rw [updateLightValue_cycles_same cfg s r hc]
        omega
      · rw [updateLightValue_cycles_diff cfg s r h1 hc]

theorem runTicks_relay_mem (cfg : Config) (rs : List Int) (s : ControllerState)
    (hrel : s.relayState = 0 ∨ s.relayState = 1) :
    (runTicks cfg s rs).relayState = 0 ∨ (runTicks cfg s rs).relayState = 1 := by
  induction rs generalizing s with
  | nil => exact hrel
  | cons r rs ih => exact ih _ (checkSwitchConditions_relay_mem cfg s r hrel)

theorem runTicks_dark_const (cfg : Config) (d : Bool) (rs : List Int) (s : ControllerState)
    (hd : s.lightConditionDark = d)
    (hall : ∀ x ∈ rs, classifiesDark cfg x = d) :
    (runTicks cfg s rs).lightConditionDark = d := by
  induction rs generalizing s with
  | nil => exact hd
  | cons r rs ih =>
      rw [runTicks_cons]
      refine ih _ ?_ ?_
      · rw [checkSwitchConditions_lightConditionDark]
        exact hall r (List.mem_cons_self r rs)
      · intro x hx
        exact hall x (List.mem_cons_of_mem r hx)

theorem runTicks_cycles_const (cfg : Config) (d : Bool) (rs : List Int)
    (s : ControllerState)
    (hd : s.lightConditionDark = d)
    (hall : ∀ x ∈ rs, classifiesDark cfg x = d)
    (hcN : s.currLightConditionCycles ≤ cfg.settingDelayParam) :
    (runTicks cfg s rs).currLightConditionCycles =
      min (s.currLightConditionCycles + (rs.length : Int)) cfg.settingDelayParam := by
  induction rs generalizing s with
  | nil =>
      simp only [runTicks_nil, List.length_nil, Nat.cast_zero, add_zero]
      omega
  | cons r rs ih =>
      have hcr : classifiesDark cfg r = s.lightConditionDark := by
        rw [hall r (List.mem_cons_self r rs), hd]
      have hcy : (checkSwitchConditions cfg s r).currLightConditionCycles =
          min (s.currLightConditionCycles + 1) cfg.settingDelayParam := by
        rw [checkSwitchConditions_cycles, updateLightValue_cycles_same cfg s r hcr]
      rw [runTicks_cons,
        ih (checkSwitchConditions cfg s r)
          (by rw [checkSwitchConditions_lightConditionDark,
                hall r (List.mem_cons_self r rs)])
          (fun x hx => hall x (List.mem_cons_of_mem r hx))
          (by rw [hcy]; omega),
        hcy]
      simp only [List.length_cons]
      push_cast
      omega

theorem runTicks_relay_keep_matched (cfg : Config) (d : Bool) (rs : List Int)
    (s : ControllerState)
    (hall : ∀ x ∈ rs, classifiesDark cfg x = d)
    (hm : s.relayState = if d then 1 else 0) :
    (runTicks cfg s rs).relayState = if d then 1 else 0 := by
  induction rs generalizing s with
  | nil => exact hm
  | cons r rs ih =>
      have h1 : (checkSwitchConditions cfg s r).relayState = s.relayState :=
        checkSwitchConditions_relay_matched cfg s r
          (by rw [hall r (List.mem_cons_self r rs)]; exact hm)
      rw [runTicks_cons]
      exact ih _ (fun x hx => hall x (List.mem_cons_of_mem r hx)) (h1.trans hm)

theorem runTicks_relay_unchanged_of_short (cfg : Config) (d : Bool) (rs : List Int)
    (s : ControllerState)
    (hd : s.lightConditionDark = d)
    (hall : ∀ x ∈ rs, classifiesDark cfg x = d)
    (hshort : s.currLightConditionCycles + (rs.length : Int) < cfg.settingDelayParam) :
    (runTicks cfg s rs).relayState = s.relayState := by
  induction rs generalizing s with
  | nil => rfl
  | cons r rs ih =>
      have hcr : classifiesDark cfg r = s.lightConditionDark := by
        rw [hall r (List.mem_cons_self r rs), hd]
      have hlen : s.currLightConditionCycles + 1 + (rs.length : Int) <
          cfg.settingDelayParam := by
        simp only [List.length_cons] at hshort
        push_cast at hshort
        omega
      have hcy : (checkSwitchConditions cfg s r).currLightConditionCycles =
          s.currLightConditionCycles + 1 := by
        rw [checkSwitchConditions_cycles, updateLightValue_cycles_same cfg s r hcr]
        omega
      have h1 : (checkSwitchConditions cfg s r).relayState = s.relayState := by
        apply checkSwitchConditions_relay_of_not_allowed
        rw [updateLightValue_cycles_same cfg s r hcr]
        omega
      rw [runTicks_cons,
        ih (checkSwitchConditions cfg s r)
          (by rw [checkSwitchConditions_lightConditionDark, hcr, hd])
          (fun x hx => hall x (List.mem_cons_of_mem r hx))
          (by rw [hcy]; omega),
        h1]

theorem runTicks_relay_matches (cfg : Config) (d : Bool) (rs : List Int)
    (s : ControllerState)
    (hd : s.lightConditionDark = d)
    (hall : ∀ x ∈ rs, classifiesDark cfg x = d)
    (h : s.relayState = (if d then 1 else 0) ∨
      ((s.relayState = 0 ∨ s.relayState = 1) ∧
        0 ≤ s.currLightConditionCycles ∧
        cfg.settingDelayParam ≤ s.currLightConditionCycles + (rs.length : Int) ∧
        rs ≠ [])) :
    (runTicks cfg s rs).relayState = if d then 1 else 0 := by
  induction rs generalizing s with
  | nil =>
      rcases h with h | ⟨_, _, _, hne⟩
      · exact h
      · exact absurd rfl hne
  | cons r rs ih =>
      have hcr : classifiesDark cfg r = s.lightConditionDark := by
        rw [hall r (List.mem_cons_self r rs), hd]
      have hdark1 : (checkSwitchConditions cfg s r).lightConditionDark = d := by
        rw [checkSwitchConditions_lightConditionDark, hcr, hd]
      have htail : ∀ x ∈ rs, classifiesDark cfg x = d :=
        fun x hx => hall x (List.mem_cons_of_mem r hx)
      rcases h with hm | ⟨hrel, hc0, hlen, _⟩
      · have h1 : (checkSwitchConditions cfg s r).relayState = s.relayState :=
          checkSwitchConditions_relay_matched cfg s r (by rw [hcr, hd]; exact hm)
        rw [runTicks_cons]
        exact ih _ hdark1 htail (Or.inl (h1.trans hm))
      · have hcy : (updateLightValue cfg s r).currLightConditionCycles =
            min (s.currLightConditionCycles + 1) cfg.settingDelayParam :=
          updateLightValue_cycles_same cfg s r hcr
        rw [runTicks_cons]
        by_cases hge : cfg.settingDelayParam ≤ s.currLightConditionCycles + 1
        · have h1 : (checkSwitchConditions cfg s r).relayState =
              if classifiesDark cfg r then 1 else 0 :=
            checkSwitchConditions_relay_allowed cfg s r hrel (by rw [hcy]; omega)
          rw [hcr, hd] at h1
          exact ih _ hdark1 htail (Or.inl h1)
        · have h1 : (checkSwitchConditions cfg s r).relayState = s.relayState :=
            checkSwitchConditions_relay_of_not_allowed cfg s r (by rw [hcy]; omega)
          have hne : rs ≠ [] := by
            intro hrs
            rw [hrs] at hlen
            simp only [List.length_cons, List.length_nil, Nat.cast_one,
              Nat.cast_zero] at hlen
            omega
          refine ih _ hdark1 htail (Or.inr ⟨h1 ▸ hrel, ?_, ?_, hne⟩)
          · rw [checkSwitchConditions_cycles, hcy]
            omega
          · rw [checkSwitchConditions_cycles, hcy]
            simp only [List.length_cons] at hlen
            push_cast at hlen
            omega

theorem flipsEveryTick_relay_take (cfg : Config) (h1 : 1 ≤ cfg.settingDelayParam) :
    ∀ (rs : List Int) (s : ControllerState), flipsEveryTick cfg s rs →
      ∀ n : Nat, (runTicks cfg s (List.take n rs)).relayState = s.relayState := by
  intro rs
  induction rs with
  | nil =>
      intro s _ n
      simp [runTicks]
  | cons r rs ih =>
      intro s hf n
      cases n with
      | zero => rfl
      | succ n =>
          obtain ⟨hne, hftail⟩ := hf
          have hcy : (updateLightValue cfg s r).currLightConditionCycles = 0 :=
            updateLightValue_cycles_diff cfg s r h1 hne
          have hr : (checkSwitchConditions cfg s r).relayState = s.relayState :=
            checkSwitchConditions_relay_of_not_allowed cfg s r (by rw [hcy]; omega)
          rw [List.take_succ_cons, runTicks_cons, ih _ hftail n, hr]

/-! ### Claim theorems -/

/-- C1 (counterexample): with `requiredStableTicks = 1`, `darkThreshold = 25`
and the post-setup state (classification bright, relay off), the reading 10
classifies as dark, so the classification is constant (dark) over a window of
`requiredStableTicks = 1` consecutive ticks — yet at the end of that window
the relay is not on, and the relay then changes on a later tick although the
classification stays dark.  The tick on which the classification changes
resets the counter to 0, so the window that starts at the change is one tick
too short to switch the relay. -/
theorem c1_window_counterexample :
    classifiesDark ⟨1, 25⟩ 10 = true ∧
    (setup PinLevel.high PinLevel.low).lightConditionDark = false ∧
    (runTicks ⟨1, 25⟩ (setup PinLevel.high PinLevel.low) [10]).relayState ≠ 1 ∧
    (runTicks ⟨1, 25⟩ (setup PinLevel.high PinLevel.low) [10, 10]).relayState ≠
      (runTicks ⟨1, 25⟩ (setup PinLevel.high PinLevel.low) [10]).relayState := by
  decide

/-- C1 (amended): for every configuration with both parameters in [1,100] and
every well-formed state (relay 0 or 1, counter ≥ 0), if the classification is
constant over `requiredStableTicks` consecutive ticks AND agrees with the
classification stored in the state when the window starts (i.e. the window
does not begin on the tick of a classification change), then at the end of
the window the relay matches the classification (1 if dark, 0 if bright), and
it keeps that value on every later tick while the classification stays the
same. -/
theorem c1_stable_window_matches_relay (cfg : Config)
    (h1 : 1 ≤ cfg.settingDelayParam) (h2 : cfg.settingDelayParam ≤ 100)
    (h3 : 1 ≤ cfg.settingDarkLevelParam) (h4 : cfg.settingDarkLevelParam ≤ 100)
    (s : ControllerState)
    (hrel : s.relayState = 0 ∨ s.relayState = 1)
    (hc0 : 0 ≤ s.currLightConditionCycles)
    (d : Bool) (hd : s.lightConditionDark = d)
    (rs : List Int) (hall : ∀ x ∈ rs, classifiesDark cfg x = d)
    (hlen : (rs.length : Int) = cfg.settingDelayParam)
    (ts : List Int) (hall2 : ∀ x ∈ ts, classifiesDark cfg x = d) :
    (runTicks cfg s rs).relayState = (if d then 1 else 0) ∧
    (runTicks cfg (runTicks cfg s rs) ts).relayState = (if d then 1 else 0) := by
  have hmatch : (runTicks cfg s rs).relayState = if d then 1 else 0 := by
    apply runTicks_relay_matches cfg d rs s hd hall
    right
    refine ⟨hrel, hc0, by omega, ?_⟩
    intro hrs
    rw [hrs] at hlen
    simp only [List.length_nil, Nat.cast_zero] at hlen
    omega
  exact ⟨hmatch, runTicks_relay_keep_matched cfg d ts _ hall2 hmatch⟩

/-- Witness for the amended C1: threshold 25, 3 stable ticks required,
starting in a dark-classified state with relay off and counter 0; three dark
readings switch the relay on, and it stays on over two further dark ticks. -/
theorem c1_stable_window_matches_relay_witness :
    (runTicks ⟨3, 25⟩ ⟨PinLevel.high, PinLevel.low, 0, true, 10, 0⟩
        [10, 10, 10]).relayState = (if true then 1 else 0) ∧
    (runTicks ⟨3, 25⟩
        (runTicks ⟨3, 25⟩ ⟨PinLevel.high, PinLevel.low, 0, true, 10, 0⟩ [10, 10, 10])
        [10, 10]).relayState = (if true then 1 else 0) :=
  c1_stable_window_matches_relay ⟨3, 25⟩ (by decide) (by decide) (by decide) (by decide)
    ⟨PinLevel.high, PinLevel.low, 0, true, 10, 0⟩ (Or.inl rfl) (by decide) true rfl
    [10, 10, 10] (by decide) (by decide) [10, 10] (by decide)

/-- C2 (counterexample): with `darkThreshold = 25`, `requiredStableTicks = 3`
and the post-setup initial state, the readings [10,10,10] do NOT leave the
relay on after tick 3 (tick 1 is the classification-change tick and resets
the counter to 0, so the counter is only 2 after tick 3). -/
theorem c2_scenario_a_counterexample :
    (runTicks ⟨3, 25⟩ (setup PinLevel.high PinLevel.low) [10, 10, 10]).relayState ≠ 1 := by
  decide

/-- C2 (amended): with `darkThreshold = 25`, `requiredStableTicks = 3` and the
post-setup initial state, after the readings [10,10,10] the relay is still
off; one further dark reading turns it on, i.e. the relay transitions to on
at tick 4. -/
theorem c2_scenario_a_amended :
    (runTicks ⟨3, 25⟩ (setup PinLevel.high PinLevel.low) [10, 10, 10]).relayState = 0 ∧
    (runTicks ⟨3, 25⟩ (setup PinLevel.high PinLevel.low) [10, 10, 10, 10]).relayState = 1 := by
  decide

/-- C3 (counterexample): same configuration; the readings [30,10,10,10] do
NOT turn the relay on at tick 4 (tick 2 is the change tick and resets the
counter, so the counter is only 2 after tick 4). -/
theorem c3_scenario_b_counterexample :
    (runTicks ⟨3, 25⟩ (setup PinLevel.high PinLevel.low) [30, 10, 10, 10]).relayState ≠ 1 := by
  decide

/-- C3 (amended): with `darkThreshold = 25`, `requiredStableTicks = 3` and the
post-setup initial state, after the readings [30,10,10,10] the relay is still
off; one further dark reading turns it on, i.e. the relay transitions to on
at tick 5. -/
theorem c3_scenario_b_amended :
    (runTicks ⟨3, 25⟩ (setup PinLevel.high PinLevel.low) [30, 10, 10, 10]).relayState = 0 ∧
    (runTicks ⟨3, 25⟩ (setup PinLevel.high PinLevel.low)
        [30, 10, 10, 10, 10]).relayState = 1 := by
  decide

/-- C4: on every tick, the stability counter becomes 0 when the new
classification differs from the stored one, and otherwise is incremented by
exactly 1 and clamped to `settingDelayParam`. -/
theorem c4_counter_update (cfg : Config) (s : ControllerState) (r : Int)
    (h1 : 1 ≤ cfg.settingDelayParam) :
    (checkSwitchConditions cfg s r).currLightConditionCycles =
      if classifiesDark cfg r = s.lightConditionDark
      then min (s.currLightConditionCycles + 1) cfg.settingDelayParam
      else 0 := by
  rw [checkSwitchConditions_cycles]
  by_cases hc : classifiesDark cfg r = s.lightConditionDark
  · rw [if_pos hc, updateLightValue_cycles_same cfg s r hc]
  · rw [if_neg hc, updateLightValue_cycles_diff cfg s r h1 hc]

/-- Witness for C4 at a concrete input (dark state, counter 1, dark reading:
counter becomes min (1+1) 3 = 2). -/
theorem c4_counter_update_witness :
    (1 : Int) ≤ (3 : Int) ∧
    (checkSwitchConditions ⟨3, 25⟩ ⟨PinLevel.high, PinLevel.low, 0, true, 10, 1⟩
        10).currLightConditionCycles =
      if classifiesDark ⟨3, 25⟩ 10 = true
      then min ((1 : Int) + 1) (3 : Int) else 0 :=
  ⟨by decide,
    c4_counter_update ⟨3, 25⟩ ⟨PinLevel.high, PinLevel.low, 0, true, 10, 1⟩ 10 (by decide)⟩

/-- C5: for every configuration with `requiredStableTicks` in [1,100], every
state with a nonnegative counter and every nonempty sequence of readings, the
counter after the run is between 0 and `settingDelayParam`. -/
theorem c5_counter_bounds (cfg : Config)
    (h1 : 1 ≤ cfg.settingDelayParam) (h2 : cfg.settingDelayParam ≤ 100)
    (s : ControllerState) (hc0 : 0 ≤ s.currLightConditionCycles)
    (rs : List Int) (r : Int) :
    0 ≤ (runTicks cfg s (rs ++ [r])).currLightConditionCycles ∧
    (runTicks cfg s (rs ++ [r])).currLightConditionCycles ≤ cfg.settingDelayParam := by
  rw [runTicks_append]
  constructor
  · exact runTicks_cycles_nonneg cfg h1 [r] _ (runTicks_cycles_nonneg cfg h1 rs s hc0)
  · show (checkSwitchConditions cfg (runTicks cfg s rs) r).currLightConditionCycles ≤ _
    exact checkSwitchConditions_cycles_le cfg _ r h1

/-- Witness for C5 at a concrete input. -/
theorem c5_counter_bounds_witness :
    0 ≤ (runTicks ⟨3, 25⟩ (setup PinLevel.high PinLevel.low)
        ([10] ++ [20])).currLightConditionCycles ∧
    (runTicks ⟨3, 25⟩ (setup PinLevel.high PinLevel.low)
        ([10] ++ [20])).currLightConditionCycles ≤ (3 : Int) :=
  c5_counter_bounds ⟨3, 25⟩ (by decide) (by decide)
    (setup PinLevel.high PinLevel.low) (by decide) [10] 20

/-- C6: on a tick from a state whose relay is 0 or 1, the relay changes if
and only if the post-update counter has reached `settingDelayParam` and the
new classification disagrees with the relay (dark with relay off, or bright
with relay on).  In particular, in every other case the relay is unchanged. -/
theorem c6_relay_change_iff (cfg : Config) (s : ControllerState) (r : Int)
    (hrel : s.relayState = 0 ∨ s.relayState = 1) :
    (checkSwitchConditions cfg s r).relayState ≠ s.relayState ↔
      (cfg.settingDelayParam ≤ (updateLightValue cfg s r).currLightConditionCycles ∧
       ((classifiesDark cfg r = true ∧ s.relayState = 0) ∨
        (classifiesDark cfg r = false ∧ s.relayState = 1))) := by
  by_cases hall : cfg.settingDelayParam ≤ (updateLightValue cfg s r).currLightConditionCycles
  · rw [checkSwitchConditions_relay_allowed cfg s r hrel hall]
    rcases Bool.eq_false_or_eq_true (classifiesDark cfg r) with hc | hc <;>
      rcases hrel with h0 | h0 <;>
      simp [hc, h0, hall]
  · rw [checkSwitchConditions_relay_of_not_allowed cfg s r (by omega)]
    simp [hall]

/-- Witness for C6 at a concrete input (dark state, relay off, counter at the
threshold: the relay changes, and the right-hand side conditions hold). -/
theorem c6_relay_change_iff_witness :
    ((checkSwitchConditions ⟨1, 25⟩ ⟨PinLevel.high, PinLevel.low, 0, true, 10, 1⟩
        10).relayState ≠ (0 : Int)) ↔
      ((1 : Int) ≤ (updateLightValue ⟨1, 25⟩
          ⟨PinLevel.high, PinLevel.low, 0, true, 10, 1⟩ 10).currLightConditionCycles ∧
       ((classifiesDark ⟨1, 25⟩ 10 = true ∧ (0 : Int) = 0) ∨
        (classifiesDark ⟨1, 25⟩ 10 = false ∧ (0 : Int) = 1))) :=
  c6_relay_change_iff ⟨1, 25⟩ ⟨PinLevel.high, PinLevel.low, 0, true, 10, 1⟩ 10 (Or.inl rfl)

/-- C7: if the classification flips on every tick of a run, the relay never
changes state at any point of the run (the counter is reset to 0 on every
tick, so it never reaches the threshold). -/
theorem c7_oscillation_relay_constant (cfg : Config) (h1 : 1 ≤ cfg.settingDelayParam)
    (s : ControllerState) (rs : List Int) (hf : flipsEveryTick cfg s rs) (n : Nat) :
    (runTicks cfg s (List.take n rs)).relayState = s.relayState :=
  flipsEveryTick_relay_take cfg h1 rs s hf n

/-- Witness for C7: threshold 25, 2 stable ticks required, post-setup state,
alternating readings 10/30; after 3 of the 4 ticks the relay is unchanged. -/
theorem c7_oscillation_relay_constant_witness :
    (runTicks ⟨2, 25⟩ (setup PinLevel.high PinLevel.low)
        (List.take 3 [10, 30, 10, 30])).relayState =
      (setup PinLevel.high PinLevel.low).relayState :=
  c7_oscillation_relay_constant ⟨2, 25⟩ (by decide)
    (setup PinLevel.high PinLevel.low) [10, 30, 10, 30]
    ⟨by decide, by decide, by decide, by decide, trivial⟩ 3

/-- C8: a reading exactly equal to `settingDarkLevelParam` is classified as
dark on the tick, and in general the tick classifies dark exactly when the
reading is ≤ the threshold (inclusive on the dark side). -/
theorem c8_boundary_dark (cfg : Config) (s : ControllerState) :
    (checkSwitchConditions cfg s cfg.settingDarkLevelParam).lightConditionDark = true ∧
    ∀ r : Int, ((checkSwitchConditions cfg s r).lightConditionDark = true ↔
      r ≤ cfg.settingDarkLevelParam) := by
  constructor
  · rw [checkSwitchConditions_lightConditionDark]
    simp [classifiesDark]
  · intro r
    rw [checkSwitchConditions_lightConditionDark]
    simp only [classifiesDark]
    split <;> simp_all

/-- C9: `setup` forces the relay off (state 0) and drives the actuator pins to
the off position (D5 high, D8 low) before the first tick, whatever the pin
levels were before boot; `setup` reads no sensor value. -/
theorem c9_setup_relay_off (d5 d8 : PinLevel) :
    (setup d5 d8).relayState = 0 ∧
    (setup d5 d8).pinD5 = PinLevel.high ∧
    (setup d5 d8).pinD8 = PinLevel.low :=
  ⟨rfl, rfl, rfl⟩

/-- C10: if the classification changes on some tick (reading `r` classifies
differently from the stored classification), the relay does not change on
that tick nor during the next `requiredStableTicks - 1` ticks of the new
classification; and on the (`requiredStableTicks` + 1)-th consecutive tick of
the new classification the relay does change, provided the new classification
disagrees with the relay. -/
theorem c10_change_earliest_switch (cfg : Config) (h1 : 1 ≤ cfg.settingDelayParam)
    (s : ControllerState) (hrel : s.relayState = 0 ∨ s.relayState = 1)
    (r : Int) (hchg : classifiesDark cfg r ≠ s.lightConditionDark)
    (rs : List Int)
    (hall : ∀ x ∈ rs, classifiesDark cfg x = classifiesDark cfg r)
    (hlen : (rs.length : Int) ≤ cfg.settingDelayParam - 1)
    (q : Int) (hq : classifiesDark cfg q = classifiesDark cfg r) :
    ((checkSwitchConditions cfg s r).relayState = s.relayState ∧
     (runTicks cfg (checkSwitchConditions cfg s r) rs).relayState = s.relayState) ∧
    ((rs.length : Int) = cfg.settingDelayParam - 1 →
      ((classifiesDark cfg r = true ∧ s.relayState = 0) ∨
       (classifiesDark cfg r = false ∧ s.relayState = 1)) →
      (checkSwitchConditions cfg
        (runTicks cfg (checkSwitchConditions cfg s r) rs) q).relayState ≠
        s.relayState) := by
  have h0 : (updateLightValue cfg s r).currLightConditionCycles = 0 :=
    updateLightValue_cycles_diff cfg s r h1 hchg
  have hs1rel : (checkSwitchConditions cfg s r).relayState = s.relayState :=
    checkSwitchConditions_relay_of_not_allowed cfg s r (by omega)
  have hs1cyc : (checkSwitchConditions cfg s r).currLightConditionCycles = 0 := by
    rw [checkSwitchConditions_cycles, h0]
  have hs1dark : (checkSwitchConditions cfg s r).lightConditionDark =
      classifiesDark cfg r :=
    checkSwitchConditions_lightConditionDark cfg s r
  have hwin : (runTicks cfg (checkSwitchConditions cfg s r) rs).relayState =
      s.relayState := by
    rw [runTicks_relay_unchanged_of_short cfg (classifiesDark cfg r) rs _ hs1dark hall
      (by omega), hs1rel]
  refine ⟨⟨hs1rel, hwin⟩, ?_⟩
  intro hlenEq hdis
  have hs2dark : (runTicks cfg (checkSwitchConditions cfg s r) rs).lightConditionDark =
      classifiesDark cfg r :=
    runTicks_dark_const cfg (classifiesDark cfg r) rs _ hs1dark hall
  have hs2cyc : (runTicks cfg (checkSwitchConditions cfg s r) rs).currLightConditionCycles =
      cfg.settingDelayParam - 1 := by
    rw [runTicks_cycles_const cfg (classifiesDark cfg r) rs _ hs1dark hall (by omega),
      hs1cyc]
    omega
  have hs2rel : (runTicks cfg (checkSwitchConditions cfg s r) rs).relayState = 0 ∨
      (runTicks cfg (checkSwitchConditions cfg s r) rs).relayState = 1 := by
    rw [hwin]
    exact hrel
  have hupd : cfg.settingDelayParam ≤
      (updateLightValue cfg (runTicks cfg (checkSwitchConditions cfg s r) rs)
        q).currLightConditionCycles := by
    rw [updateLightValue_cycles_same cfg _ q (by rw [hq, hs2dark]), hs2cyc]
    omega
  have hfin : (checkSwitchConditions cfg
      (runTicks cfg (checkSwitchConditions cfg s r) rs) q).relayState =
      if classifiesDark cfg q then 1 else 0 :=
    checkSwitchConditions_relay_allowed cfg _ q hs2rel hupd
  rw [hfin, hq]
  rcases hdis with ⟨hct, hr0⟩ | ⟨hcf, hr1⟩
  · rw [hct, hr0]
    simp
  · rw [hcf, hr1]
    simp

/-- Witness for C10: threshold 25, 2 stable ticks required; from the
post-setup state (bright, relay off) a dark reading is a change tick, one
more dark reading keeps the relay off, and the third consecutive dark tick
turns the relay on. -/
theorem c10_change_earliest_switch_witness :
    (checkSwitchConditions ⟨2, 25⟩ (setup PinLevel.high PinLevel.low) 10).relayState =
      (setup PinLevel.high PinLevel.low).relayState ∧
    (runTicks ⟨2, 25⟩
        (checkSwitchConditions ⟨2, 25⟩ (setup PinLevel.high PinLevel.low) 10)
        [10]).relayState = (setup PinLevel.high PinLevel.low).relayState ∧
    (checkSwitchConditions ⟨2, 25⟩
        (runTicks ⟨2, 25⟩
          (checkSwitchConditions ⟨2, 25⟩ (setup PinLevel.high PinLevel.low) 10)
          [10]) 10).relayState ≠ (setup PinLevel.high PinLevel.low).relayState :=
  ⟨(c10_change_earliest_switch ⟨2, 25⟩ (by decide) (setup PinLevel.high PinLevel.low)
      (Or.inl rfl) 10 (by decide) [10] (by decide) (by decide) 10 (by decide)).1.1,
   (c10_change_earliest_switch ⟨2, 25⟩ (by decide) (setup PinLevel.high PinLevel.low)
      (Or.inl rfl) 10 (by decide) [10] (by decide) (by decide) 10 (by decide)).1.2,
   (c10_change_earliest_switch ⟨2, 25⟩ (by decide) (setup PinLevel.high PinLevel.low)
      (Or.inl rfl) 10 (by decide) [10] (by decide) (by decide) 10 (by decide)).2
     (by decide) (Or.inl ⟨by decide, rfl⟩)⟩

end LampControl
